import Mathlib

/-!
A shallow embedding of the lumol neighbor-discovery subsystem.

This file embeds the `neighbors` module of the lumol molecular-dynamics
engine (`statistics.rs`, `cutoffs.rs`, `countdown.rs`, `all_pairs.rs`,
`directed_linked_list.rs`, `mod.rs`) into Lean and proves the testable
properties of its specification.

Modelling conventions:
* `f64` quantities (cutoffs, skins, squared distances) are embedded as `ℚ`;
  the claims under study depend only on order comparisons, never on
  floating-point rounding.
* The simulation cell and the particle container are external collaborators
  of the subsystem; only their consumed surface is modelled: a cell is a
  squared-minimum-image-distance function, a particle container is its list
  of positions.
* A Rust `panic!` / failed `assert!` / `unwrap` on `None` / remainder by
  zero is embedded as the `none` case of an `Option`-valued function; every
  function that cannot panic is total.
* The `u64` counters are embedded as `ℕ`: no claim exercises counter
  overflow.
-/

namespace Lumol

/-- Three Cartesian coordinates, as in `Vector3D` (three `f64` fields). -/
abbrev Vector3D : Type := ℚ × ℚ × ℚ

/-- The simulation cell, an external collaborator: the subsystem consumes
only `distance2(a, b)`, the squared minimum-image distance. -/
structure UnitCell where
  distance2 : Vector3D → Vector3D → ℚ

/-- The particle container, an external collaborator: the subsystem consumes
only the positions array and its length. -/
structure ParticleVec where
  position : List Vector3D

/-- Rust `ParticleVec::len`: the number of particles. -/
def ParticleVec.len (particles : ParticleVec) : ℕ :=
  particles.position.length

/-- Rust `Statistics` (statistics.rs): tallies of steps, update checks, updates
and sanity checks. -/
structure Statistics where
  steps : ℕ
  update_checks : ℕ
  updates : ℕ
  sanity_checks : ℕ
deriving DecidableEq, Repr

/-- Rust `Statistics::default()`: all counters zero. -/
def Statistics.init : Statistics :=
  ⟨0, 0, 0, 0⟩

/-- Rust `CountDown` (countdown.rs): configuration and counters deciding when to
check and update the neighborlist. -/
structure CountDown where
  delay : ℕ
  steps_per_update_check : ℕ
  updates_per_sanity_check : Option ℕ
  step_counter : ℕ
  update_counter : ℕ
  statistics : Statistics
deriving DecidableEq, Repr

/-- Rust `CountDown::new`: counters start at zero, statistics at default. -/
def CountDown.new (delay steps_per_update_check : ℕ)
    (updates_per_sanity_check : Option ℕ) : CountDown :=
  { delay := delay
    steps_per_update_check := steps_per_update_check
    updates_per_sanity_check := updates_per_sanity_check
    step_counter := 0
    update_counter := 0
    statistics := Statistics.init }

/-- Rust `CountDown::needs_update_check`: bump `step_counter` and `statistics.steps`;
inside the delay window (`checked_sub` underflow) return `false`; past it,
return `true` exactly when the offset is a multiple of
`steps_per_update_check`.  The Rust remainder panics when
`steps_per_update_check` is zero, embedded as `none`. -/
def CountDown.needs_update_check (c : CountDown) : Option (Bool × CountDown) :=
  let c' : CountDown :=
    { c with
      step_counter := c.step_counter + 1
      statistics := { c.statistics with steps := c.statistics.steps + 1 } }
  if c'.step_counter < c'.delay + 1 then
    some (false, c')
  else if c'.steps_per_update_check = 0 then
    none
  else if (c'.step_counter - (c'.delay + 1)) % c'.steps_per_update_check = 0 then
    some (true,
      { c' with
        statistics :=
          { c'.statistics with update_checks := c'.statistics.update_checks + 1 } })
  else
    some (false, c')

/-- Rust `CountDown::needs_sanity_check`: reset `step_counter`, bump
`update_counter` and `statistics.updates`; when `updates_per_sanity_check`
is configured and divides `update_counter`, record a sanity check, reset
`update_counter` and return `true`.  The Rust remainder panics when the
configured value is zero, embedded as `none`. -/
def CountDown.needs_sanity_check (c : CountDown) : Option (Bool × CountDown) :=
  let c' : CountDown :=
    { c with
      step_counter := 0
      update_counter := c.update_counter + 1
      statistics := { c.statistics with updates := c.statistics.updates + 1 } }
  match c'.updates_per_sanity_check with
  | none => some (false, c')
  | some u =>
    if u = 0 then
      none
    else if c'.update_counter % u = 0 then
      some (true,
        { c' with
          update_counter := 0
          statistics :=
            { c'.statistics with sanity_checks := c'.statistics.sanity_checks + 1 } })
    else
      some (false, c')

/-- Run `n` consecutive calls to `needs_update_check`, collecting the
returned booleans in order; `none` if any call panics. -/
def CountDown.run_update_checks (c : CountDown) : ℕ → Option (List Bool × CountDown)
  | 0 => some ([], c)
  | n + 1 =>
    match c.needs_update_check with
    | none => none
    | some (b, c') =>
      match c'.run_update_checks n with
      | none => none
      | some (bs, c'') => some (b :: bs, c'')

/-- Rust `Cutoffs` (cutoffs.rs): the interaction radius and the Verlet buffer. -/
structure Cutoffs where
  max_cutoff : ℚ
  skin : ℚ
deriving DecidableEq, Repr

/-- Rust `Cutoffs::new`. -/
def Cutoffs.new (max_cutoff skin : ℚ) : Cutoffs :=
  ⟨max_cutoff, skin⟩

/-- Rust `Cutoffs::max_cutoff2`: square of the interaction radius. -/
def Cutoffs.max_cutoff2 (c : Cutoffs) : ℚ :=
  c.max_cutoff ^ 2

/-- Rust `Cutoffs::skin2`: square of the Verlet buffer. -/
def Cutoffs.skin2 (c : Cutoffs) : ℚ :=
  c.skin ^ 2

/-- Rust `Cutoffs::update_cutoff2`: square of `max_cutoff + 2 * skin`. -/
def Cutoffs.update_cutoff2 (c : Cutoffs) : ℚ :=
  (c.max_cutoff + 2 * c.skin) ^ 2

/-- The scan loop of `Cutoffs::needs_update`: walk the zipped snapshot and
current positions, returning `true` at the first particle whose squared
displacement exceeds `skin2` (the Rust loop `return`s there). -/
def Cutoffs.needs_update_go (c : Cutoffs) (cell : UnitCell) :
    List Vector3D → List Vector3D → Bool
  | x :: xs, y :: ys =>
    if c.skin2 < cell.distance2 x y then true else c.needs_update_go cell xs ys
  | _, _ => false

/-- Rust `Cutoffs::needs_update`: `assert_eq!` on the two lengths (failure is the
`none` case), then scan for a particle displaced beyond the skin. -/
def Cutoffs.needs_update (c : Cutoffs) (positions_at_last_update : List Vector3D)
    (cell : UnitCell) (particles : ParticleVec) : Option Bool :=
  if positions_at_last_update.length = particles.position.length then
    some (c.needs_update_go cell positions_at_last_update particles.position)
  else
    none

/-- Rust `AllPairs` (all_pairs.rs): the degenerate backend, only a particle count
and an initialization flag. -/
structure AllPairs where
  natoms : ℕ
  initialized : Bool
deriving DecidableEq, Repr

/-- Rust `AllPairs::new`. -/
def AllPairs.new : AllPairs :=
  ⟨0, false⟩

/-- Rust `AllPairs::update_neighbors`: record the particle count and mark
initialized; the cell is ignored. -/
def AllPairs.update_neighbors (_ap : AllPairs) (_cell : UnitCell)
    (particles : ParticleVec) : AllPairs :=
  ⟨particles.len, true⟩

/-- Rust `AllPairs::ensure_updated` forwards to `update_neighbors`. -/
def AllPairs.ensure_updated (ap : AllPairs) (cell : UnitCell)
    (particles : ParticleVec) : AllPairs :=
  ap.update_neighbors cell particles

/-- Rust `AllPairs::each_i`: asserts initialization (failure is `none`), then
visits every `i` in `[0, natoms)`; the value is the visited outer indices. -/
def AllPairs.each_i (ap : AllPairs) : Option (List ℕ) :=
  if ap.initialized then some (List.range ap.natoms) else none

/-- Rust `AllPairs::each_j`: visits every `j` in `[0, i)`; no initialization
check, no failure path. -/
def AllPairs.each_j (_ap : AllPairs) (i : ℕ) : Option (List ℕ) :=
  some (List.range i)

/-- Rust `DirectedLinkedList` (directed_linked_list.rs): the buffered Verlet
list, a lower-triangular adjacency plus the position snapshot taken at the
last rebuild. -/
structure DirectedLinkedList where
  countdown : CountDown
  cutoffs : Cutoffs
  initialized : Bool
  edges : List (List ℕ)
  position_snapshot : List Vector3D
deriving DecidableEq, Repr

/-- Rust `DirectedLinkedList::new`: empty adjacency and snapshot, not
initialized. -/
def DirectedLinkedList.new (countdown : CountDown) (cutoffs : Cutoffs) :
    DirectedLinkedList :=
  { countdown := countdown
    cutoffs := cutoffs
    initialized := false
    edges := []
    position_snapshot := [] }

/-- Rust `DirectedLinkedList::update_neighbors`: rebuild `edges` from scratch —
entry `i` collects, in scan order, every `j < i` with squared distance below
`update_cutoff2` — copy the positions into `position_snapshot` and mark
initialized. -/
def DirectedLinkedList.update_neighbors (nl : DirectedLinkedList)
    (cell : UnitCell) (particles : ParticleVec) : DirectedLinkedList :=
  let u2 := nl.cutoffs.update_cutoff2
  let edges := (List.range particles.len).map fun i =>
    (List.range i).filter fun j =>
      decide (cell.distance2 (particles.position.getD i default)
        (particles.position.getD j default) < u2)
  { nl with
    edges := edges
    position_snapshot := particles.position
    initialized := true }

/-- Rust `DirectedLinkedList::sanity_check`: for every pair `j < i` with squared
distance below `max_cutoff2`, the Rust loop indexes `edges[i]` (out of range
panics) and panics unless `j` is stored there; both panics are the `none`
case. -/
def DirectedLinkedList.sanity_check (nl : DirectedLinkedList) (cell : UnitCell)
    (particles : ParticleVec) : Option Unit :=
  if ∀ i < particles.len, ∀ j < i,
      cell.distance2 (particles.position.getD i default)
        (particles.position.getD j default) < nl.cutoffs.max_cutoff2 →
      (i < nl.edges.length ∧ j ∈ nl.edges.getD i []) then
    some ()
  else
    none

/-- Rust `DirectedLinkedList::ensure_updated`: the three nested guards — the
temporal gate `needs_update_check`, the drift gate `needs_update`, and the
optional `sanity_check` run just before the rebuild. -/
def DirectedLinkedList.ensure_updated (nl : DirectedLinkedList)
    (cell : UnitCell) (particles : ParticleVec) : Option DirectedLinkedList :=
  match nl.countdown.needs_update_check with
  | none => none
  | some (check, cd) =>
    let nl₁ : DirectedLinkedList := { nl with countdown := cd }
    if check then
      match nl₁.cutoffs.needs_update nl₁.position_snapshot cell particles with
      | none => none
      | some upd =>
        if upd then
          match nl₁.countdown.needs_sanity_check with
          | none => none
          | some (sc, cd₂) =>
            let nl₂ : DirectedLinkedList := { nl₁ with countdown := cd₂ }
            match (if sc then nl₂.sanity_check cell particles else some ()) with
            | none => none
            | some _ => some (nl₂.update_neighbors cell particles)
        else
          some nl₁
    else
      some nl₁

/-- Rust `DirectedLinkedList::each_i`: asserts initialization (failure is
`none`), then visits every `i` in `[0, |edges|)`. -/
def DirectedLinkedList.each_i (nl : DirectedLinkedList) : Option (List ℕ) :=
  if nl.initialized then some (List.range nl.edges.length) else none

/-- Rust `DirectedLinkedList::each_j`: `edges.get(i).unwrap()` — visits the
stored endpoints of entry `i`, panicking (`none`) when `i` is out of
range. -/
def DirectedLinkedList.each_j (nl : DirectedLinkedList) (i : ℕ) :
    Option (List ℕ) :=
  nl.edges.get? i

/-- Run `n` consecutive calls to `ensure_updated`; `none` if any call
panics. -/
def DirectedLinkedList.ensure_updated_iter (nl : DirectedLinkedList)
    (cell : UnitCell) (particles : ParticleVec) : ℕ → Option DirectedLinkedList
  | 0 => some nl
  | n + 1 =>
    match nl.ensure_updated_iter cell particles n with
    | none => none
    | some nl' => nl'.ensure_updated cell particles

/-- Rust `Neighbors` (mod.rs): the tagged facade over the two backends. -/
inductive Neighbors where
  | all_pairs (backend : AllPairs)
  | directed (backend : DirectedLinkedList)
deriving DecidableEq, Repr

/-- Rust `Neighbors::new_all_pairs`. -/
def Neighbors.new_all_pairs : Neighbors :=
  .all_pairs AllPairs.new

/-- Rust `Neighbors::new_directed_linkedlist`: assemble the countdown and the
cutoffs and wrap the directed backend; the source performs no validation of
any argument. -/
def Neighbors.new_directed_linkedlist (max_cutoff skin : ℚ)
    (delay steps_per_update_check : ℕ)
    (updates_per_sanity_check : Option ℕ) : Neighbors :=
  let countdown := CountDown.new delay steps_per_update_check updates_per_sanity_check
  let cutoffs := Cutoffs.new max_cutoff skin
  .directed (DirectedLinkedList.new countdown cutoffs)

/-- The visited pair set of an updated `AllPairs`, read off `each_i` /
`each_j`: outer indices from `each_i`, inner from `each_j`. -/
def AllPairs.visited_pairs (ap : AllPairs) : Option (List (ℕ × ℕ)) :=
  ap.each_i.map fun is =>
    is.flatMap fun i => ((ap.each_j i).getD []).map fun j => (i, j)

/-- The visited pair set of an updated `DirectedLinkedList`, read off
`each_i` / `each_j`. -/
def DirectedLinkedList.visited_pairs (nl : DirectedLinkedList) :
    Option (List (ℕ × ℕ)) :=
  nl.each_i.map fun is =>
    is.flatMap fun i => ((nl.each_j i).getD []).map fun j => (i, j)

/-- A concrete cell for the concrete evaluations below: an infinite,
non-periodic cell whose `distance2` is the plain squared Euclidean
distance. -/
def euclidean_cell : UnitCell :=
  ⟨fun a b => (a.1 - b.1) ^ 2 + (a.2.1 - b.2.1) ^ 2 + (a.2.2 - b.2.2) ^ 2⟩

/-- A degenerate cell in which every squared distance is zero. -/
def zero_cell : UnitCell :=
  ⟨fun _ _ => 0⟩

/-- Three collinear particles at x = 0, 1, 10. -/
def three_particles : ParticleVec :=
  ⟨[(0, 0, 0), (1, 0, 0), (10, 0, 0)]⟩

/-- Two particles, both at the origin. -/
def two_particles : ParticleVec :=
  ⟨[(0, 0, 0), (0, 0, 0)]⟩

/-- A directed backend with `max_cutoff = 1`, `skin = 1`, `delay = 5`,
`steps_per_update_check = 2` and sanity checks disabled. -/
def sample_list : DirectedLinkedList :=
  DirectedLinkedList.new (CountDown.new 5 2 none) (Cutoffs.new 1 1)

/-! ## Helper lemmas -/

/-- Entry `i` of the rebuilt adjacency is the filtered scan of `[0, i)`. -/
theorem DirectedLinkedList.edges_update_neighbors_getD
    (nl : DirectedLinkedList) (cell : UnitCell) (ps : ParticleVec)
    (i : ℕ) (hi : i < ps.len) :
    (nl.update_neighbors cell ps).edges.getD i [] =
      (List.range i).filter fun j =>
        decide (cell.distance2 (ps.position.getD i default)
          (ps.position.getD j default) < nl.cutoffs.update_cutoff2) := by
  simp [update_neighbors, List.getD_eq_getElem?_getD, List.getElem?_map,
    List.getElem?_range hi]

/-- Membership in entry `i` of the rebuilt adjacency. -/
theorem DirectedLinkedList.mem_edges_update_neighbors
    (nl : DirectedLinkedList) (cell : UnitCell) (ps : ParticleVec)
    (i j : ℕ) (hi : i < ps.len) :
    j ∈ (nl.update_neighbors cell ps).edges.getD i [] ↔
      j < i ∧ cell.distance2 (ps.position.getD i default)
        (ps.position.getD j default) < nl.cutoffs.update_cutoff2 := by
  rw [nl.edges_update_neighbors_getD cell ps i hi]
  simp [List.mem_filter, List.mem_range]

/-- The scan loop of `needs_update` hits some particle iff some index has
squared displacement beyond the skin. -/
theorem Cutoffs.needs_update_go_iff (c : Cutoffs) (cell : UnitCell) :
    ∀ l₁ l₂ : List Vector3D,
      c.needs_update_go cell l₁ l₂ = true ↔
        ∃ k, k < l₁.length ∧ k < l₂.length ∧
          c.skin2 < cell.distance2 (l₁.getD k default) (l₂.getD k default) := by
  intro l₁
  induction l₁ with
  | nil => intro l₂; simp [needs_update_go]
  | cons x xs ih =>
    intro l₂
    cases l₂ with
    | nil => simp [needs_update_go]
    | cons y ys =>
      rw [needs_update_go]
      by_cases h : c.skin2 < cell.distance2 x y
      · rw [if_pos h]
        simp only [eq_self_iff_true, true_iff]
        exact ⟨0, Nat.succ_pos _, Nat.succ_pos _, by simpa using h⟩
      · rw [if_neg h, ih ys]
        constructor
        · rintro ⟨k, hk₁, hk₂, hk₃⟩
          exact ⟨k + 1, Nat.succ_lt_succ hk₁, Nat.succ_lt_succ hk₂, by simpa using hk₃⟩
        · rintro ⟨k, hk₁, hk₂, hk₃⟩
          cases k with
          | zero => exact absurd (by simpa using hk₃) h
          | succ k =>
            exact ⟨k, Nat.lt_of_succ_lt_succ hk₁, Nat.lt_of_succ_lt_succ hk₂,
              by simpa using hk₃⟩

/-- Inside the delay window, `ensure_updated` only bumps the countdown:
the temporal gate returns `false` and nothing else runs. -/
theorem DirectedLinkedList.ensure_updated_in_delay (nl : DirectedLinkedList)
    (cell : UnitCell) (ps : ParticleVec)
    (h : nl.countdown.step_counter + 1 < nl.countdown.delay + 1) :
    nl.ensure_updated cell ps =
      some { nl with countdown :=
        { nl.countdown with
          step_counter := nl.countdown.step_counter + 1
          statistics := { nl.countdown.statistics with
            steps := nl.countdown.statistics.steps + 1 } } } := by
  rw [ensure_updated, CountDown.needs_update_check]
  simp only [if_pos h]
  rfl

/-! ## Claims -/

/-- C1: after `update_neighbors(cell, particles)` with `N` particles,
`edges` has exactly `N` entries; for every `i < N`, entry `i` contains
exactly those `j < i` with `cell.distance2(x_i, x_j) < update_cutoff2()`,
stored in ascending order of `j`; `position_snapshot` equals
`particles.position`, and `initialized` is true. -/
theorem claim_C1 (nl : DirectedLinkedList) (cell : UnitCell) (ps : ParticleVec)
    (i j : ℕ) (hi : i < ps.len) :
    (nl.update_neighbors cell ps).edges.length = ps.len ∧
    (nl.update_neighbors cell ps).position_snapshot = ps.position ∧
    (nl.update_neighbors cell ps).initialized = true ∧
    (j ∈ (nl.update_neighbors cell ps).edges.getD i [] ↔
      j < i ∧ cell.distance2 (ps.position.getD i default)
        (ps.position.getD j default) < nl.cutoffs.update_cutoff2) ∧
    ((nl.update_neighbors cell ps).edges.getD i []).Pairwise (· < ·) := by
  refine ⟨?_, rfl, rfl, nl.mem_edges_update_neighbors cell ps i j hi, ?_⟩
  · simp [DirectedLinkedList.update_neighbors]
  · rw [nl.edges_update_neighbors_getD cell ps i hi]
    exact (List.pairwise_lt_range i).filter _

/-- C1 witness: the concrete three-particle system in the Euclidean cell,
at `i = 1`, `j = 0`. -/
theorem claim_C1_witness :
    (sample_list.update_neighbors euclidean_cell three_particles).edges.length =
      three_particles.len ∧
    (sample_list.update_neighbors euclidean_cell three_particles).position_snapshot =
      three_particles.position ∧
    (sample_list.update_neighbors euclidean_cell three_particles).initialized = true ∧
    (0 ∈ (sample_list.update_neighbors euclidean_cell three_particles).edges.getD 1 [] ↔
      0 < 1 ∧ euclidean_cell.distance2 (three_particles.position.getD 1 default)
        (three_particles.position.getD 0 default) < sample_list.cutoffs.update_cutoff2) ∧
    ((sample_list.update_neighbors euclidean_cell three_particles).edges.getD 1 []).Pairwise
      (· < ·) :=
  claim_C1 sample_list euclidean_cell three_particles 1 0 (by decide)

/-- C2: with `delay = 5`, `steps_per_update_check = 2` and no sanity
checks, thirteen consecutive `needs_update_check` calls return
F,F,F,F,F,T,F,T,F,T,F,T,F; a following `needs_sanity_check` returns false;
repeating the thirteen calls reproduces the same results. -/
theorem claim_C2 :
    ∃ c₁ c₂ c₃,
      (CountDown.new 5 2 none).run_update_checks 13 =
        some ([false, false, false, false, false,
               true, false, true, false, true, false, true, false], c₁) ∧
      c₁.needs_sanity_check = some (false, c₂) ∧
      c₂.run_update_checks 13 =
        some ([false, false, false, false, false,
               true, false, true, false, true, false, true, false], c₃) :=
  ⟨_, _, _, rfl, rfl, rfl⟩

/-- C5: a second `update_neighbors` with the same positions leaves `edges`
and `position_snapshot` exactly as after the first call. -/
theorem claim_C5 (nl : DirectedLinkedList) (cell : UnitCell) (ps : ParticleVec) :
    ((nl.update_neighbors cell ps).update_neighbors cell ps).edges =
      (nl.update_neighbors cell ps).edges ∧
    ((nl.update_neighbors cell ps).update_neighbors cell ps).position_snapshot =
      (nl.update_neighbors cell ps).position_snapshot :=
  ⟨rfl, rfl⟩

/-- C7 counterexample: the constructors perform no validation, so
construction with `skin = 0` and `steps_per_update_check = 0` does not
terminate fatally — it returns the assembled backend. -/
theorem claim_C7_counterexample :
    Neighbors.new_directed_linkedlist 3 0 5 0 none =
      Neighbors.directed
        (DirectedLinkedList.new (CountDown.new 5 0 none) (Cutoffs.new 3 0)) :=
  rfl

/-- C7 amended: construction with `skin ≤ 0` or `steps_per_update_check = 0`
succeeds without any check; with `steps_per_update_check = 0` the fatal
error (remainder by zero) happens instead at the first `needs_update_check`
past the delay window, hence at the first `ensure_updated` when
`delay = 0`. -/
theorem claim_C7_amended :
    Neighbors.new_directed_linkedlist 3 0 0 0 none =
      Neighbors.directed
        (DirectedLinkedList.new (CountDown.new 0 0 none) (Cutoffs.new 3 0)) ∧
    (CountDown.new 0 0 none).needs_update_check = none ∧
    ∀ (cell : UnitCell) (ps : ParticleVec),
      (DirectedLinkedList.new (CountDown.new 0 0 none)
        (Cutoffs.new 3 0)).ensure_updated cell ps = none :=
  ⟨rfl, rfl, fun _ _ => rfl⟩

/-- C8 counterexample: `AllPairs::each_j` performs no initialization check:
on a freshly constructed backend it succeeds and visits 0, 1, 2. -/
theorem claim_C8_counterexample :
    AllPairs.new.each_j 3 = some [0, 1, 2] :=
  rfl

/-- C8 amended: before any update, `each_i` is fatal on both backends and
`each_j` is fatal on `DirectedLinkedList` (unwrap of the missing entry on
the empty edge list), but `AllPairs::each_j` performs no initialization
check and succeeds, visiting every `j < i`. -/
theorem claim_C8_amended (cd : CountDown) (cut : Cutoffs) (i : ℕ) :
    AllPairs.new.each_i = none ∧
    (DirectedLinkedList.new cd cut).each_i = none ∧
    (DirectedLinkedList.new cd cut).each_j i = none ∧
    AllPairs.new.each_j i = some (List.range i) :=
  ⟨rfl, rfl, rfl, rfl⟩

/-- C4: `needs_update` is fatal exactly when the snapshot and particle
lengths differ; under the length precondition it returns `true` iff some
particle's squared minimum-image displacement strictly exceeds `skin2()`.
(The return at the first exceeding particle is the structure of the scan
loop `needs_update_go`.) -/
theorem claim_C4 (c : Cutoffs) (snapshot : List Vector3D) (cell : UnitCell)
    (ps : ParticleVec) :
    (c.needs_update snapshot cell ps = none ↔ snapshot.length ≠ ps.len) ∧
    (c.needs_update snapshot cell ps = some true ↔
      snapshot.length = ps.len ∧ ∃ k, k < ps.len ∧
        c.skin2 < cell.distance2 (snapshot.getD k default)
          (ps.position.getD k default)) ∧
    (c.needs_update snapshot cell ps = some false ↔
      snapshot.length = ps.len ∧ ∀ k, k < ps.len →
        cell.distance2 (snapshot.getD k default)
          (ps.position.getD k default) ≤ c.skin2) := by
  have hlen : ps.len = ps.position.length := rfl
  rw [Cutoffs.needs_update]
  by_cases h : snapshot.length = ps.position.length
  · rw [if_pos h]
    refine ⟨by simp [hlen, h], ?_, ?_⟩
    · simp only [Option.some.injEq, c.needs_update_go_iff cell snapshot ps.position]
      constructor
      · rintro ⟨k, hk₁, hk₂, hk₃⟩
        exact ⟨h, k, hk₂, hk₃⟩
      · rintro ⟨_, k, hk, hk₃⟩
        refine ⟨k, ?_, hk, hk₃⟩
        rw [hlen] at hk
        omega
    · simp only [Option.some.injEq]
      rw [show (c.needs_update_go cell snapshot ps.position = false) ↔
            ¬(c.needs_update_go cell snapshot ps.position = true) by simp,
        c.needs_update_go_iff cell snapshot ps.position]
      push_neg
      constructor
      · intro hall
        exact ⟨h, fun k hk => hall k (by rw [hlen] at hk; omega) hk⟩
      · rintro ⟨_, hall⟩ k _ hk₂
        exact hall k hk₂
  · rw [if_neg h]
    refine ⟨by simp [hlen, h], by simp [hlen, h], by simp [hlen, h]⟩

/-- C6: inside the delay window (`step_counter` below `delay + 1` after the
increment) `ensure_updated` succeeds and changes neither `edges`,
`position_snapshot`, `initialized` nor `cutoffs`: only the countdown moves;
in particular the drift check and the rebuild are skipped. -/
theorem claim_C6 (nl : DirectedLinkedList) (cell : UnitCell) (ps : ParticleVec)
    (h : nl.countdown.step_counter + 1 < nl.countdown.delay + 1) :
    ∃ nl', nl.ensure_updated cell ps = some nl' ∧
      nl'.edges = nl.edges ∧
      nl'.position_snapshot = nl.position_snapshot ∧
      nl'.initialized = nl.initialized ∧
      nl'.cutoffs = nl.cutoffs ∧
      nl'.countdown.step_counter = nl.countdown.step_counter + 1 :=
  ⟨_, nl.ensure_updated_in_delay cell ps h, rfl, rfl, rfl, rfl, rfl⟩

/-- C6 witness: the freshly constructed sample backend (`step_counter = 0`,
`delay = 5`) on the three-particle system. -/
theorem claim_C6_witness :
    ∃ nl', sample_list.ensure_updated euclidean_cell three_particles = some nl' ∧
      nl'.edges = sample_list.edges ∧
      nl'.position_snapshot = sample_list.position_snapshot ∧
      nl'.initialized = sample_list.initialized ∧
      nl'.cutoffs = sample_list.cutoffs ∧
      nl'.countdown.step_counter = sample_list.countdown.step_counter + 1 :=
  claim_C6 sample_list euclidean_cell three_particles (by decide)

/-- The first `delay` calls to `ensure_updated` on a freshly constructed
directed backend only advance the step counter. -/
theorem DirectedLinkedList.ensure_updated_iter_new_delay
    (delay spc : ℕ) (u : Option ℕ) (cut : Cutoffs) (cell : UnitCell)
    (ps : ParticleVec) :
    ∀ k, k ≤ delay →
      (DirectedLinkedList.new (CountDown.new delay spc u) cut).ensure_updated_iter
          cell ps k =
        some { DirectedLinkedList.new (CountDown.new delay spc u) cut with
          countdown := { CountDown.new delay spc u with
            step_counter := k
            statistics := { Statistics.init with steps := k } } } := by
  intro k
  induction k with
  | zero => intro _; rfl
  | succ k ih =>
    intro hk
    rw [ensure_updated_iter, ih (Nat.le_of_succ_le hk)]
    exact DirectedLinkedList.ensure_updated_in_delay _ cell ps
      (Nat.succ_lt_succ (Nat.lt_of_succ_le hk))

/-- C10: a directed backend never explicitly rebuilt is never initialized by
`ensure_updated` alone — with a valid stride and a non-empty particle set,
the first `delay` calls leave the list untouched (only the countdown moves),
and the `(delay+1)`-th call passes the temporal gate and dies fatally on the
length assertion in `needs_update`, the empty snapshot not matching the
particle count. -/
theorem claim_C10 (delay spc : ℕ) (hspc : 0 < spc) (u : Option ℕ)
    (cut : Cutoffs) (cell : UnitCell) (ps : ParticleVec) (hps : 0 < ps.len) :
    (∀ k, k ≤ delay → ∃ cd,
      (DirectedLinkedList.new (CountDown.new delay spc u) cut).ensure_updated_iter
          cell ps k =
        some { DirectedLinkedList.new (CountDown.new delay spc u) cut with
          countdown := cd }) ∧
    (DirectedLinkedList.new (CountDown.new delay spc u) cut).ensure_updated_iter
        cell ps (delay + 1) = none := by
  constructor
  · intro k hk
    exact ⟨_, DirectedLinkedList.ensure_updated_iter_new_delay delay spc u cut
      cell ps k hk⟩
  · rw [DirectedLinkedList.ensure_updated_iter,
      DirectedLinkedList.ensure_updated_iter_new_delay delay spc u cut cell ps
        delay le_rfl]
    have hlen : (0 : ℕ) ≠ ps.position.length := Nat.ne_of_lt hps
    simp [DirectedLinkedList.ensure_updated, CountDown.needs_update_check,
      Cutoffs.needs_update, DirectedLinkedList.new, CountDown.new,
      Statistics.init, hspc.ne', hlen, Nat.sub_self]

/-- C10 witness: `delay = 2`, stride 1, two particles in the zero cell —
two benign calls, then the third is fatal. -/
theorem claim_C10_witness :
    (∀ k, k ≤ 2 → ∃ cd,
      (DirectedLinkedList.new (CountDown.new 2 1 none)
          (Cutoffs.new 1 1)).ensure_updated_iter zero_cell two_particles k =
        some { DirectedLinkedList.new (CountDown.new 2 1 none) (Cutoffs.new 1 1) with
          countdown := cd }) ∧
    (DirectedLinkedList.new (CountDown.new 2 1 none)
        (Cutoffs.new 1 1)).ensure_updated_iter zero_cell two_particles (2 + 1) =
      none :=
  claim_C10 2 1 (by decide) none (Cutoffs.new 1 1) zero_cell two_particles (by decide)

/-- The quadratic step of the drift-guard argument: a displacement bounded
by the skin on each endpoint and a current distance inside the cutoff give a
rebuild-time distance inside the buffered cutoff. -/
theorem drift_arith (c s a b e D : ℚ) (hc : 0 ≤ c) (hs : 0 ≤ s)
    (ha0 : 0 ≤ a) (hb0 : 0 ≤ b) (he0 : 0 ≤ e) (hD0 : 0 ≤ D)
    (ha : a ^ 2 ≤ s ^ 2) (he : e ^ 2 ≤ s ^ 2) (hb : b ^ 2 < c ^ 2)
    (htri : D ≤ a + b + e) :
    D ^ 2 < (c + 2 * s) ^ 2 := by
  have h1 : a ≤ s := by nlinarith
  have h2 : e ≤ s := by nlinarith
  have h3 : b < c := by nlinarith
  have hD : D < c + 2 * s := by linarith
  nlinarith

/-- C3 (drift guard soundness): when `cell.distance2` is the square of a
metric and no particle's squared displacement from `position_snapshot`
exceeds `skin2()`, every pair `j < i` whose current squared distance is
below `max_cutoff2()` is still stored in `edges[i]` of the rebuilt list. -/
theorem claim_C3 (d : Vector3D → Vector3D → ℚ) (cell : UnitCell)
    (hcell : ∀ a b, cell.distance2 a b = d a b ^ 2)
    (hd0 : ∀ a b, 0 ≤ d a b)
    (hdsymm : ∀ a b, d a b = d b a)
    (hdtri : ∀ a b e, d a e ≤ d a b + d b e)
    (nl : DirectedLinkedList)
    (hc : 0 ≤ nl.cutoffs.max_cutoff) (hs : 0 ≤ nl.cutoffs.skin)
    (ps now : ParticleVec)
    (hdrift : ∀ k, k < ps.len →
      cell.distance2 ((nl.update_neighbors cell ps).position_snapshot.getD k default)
        (now.position.getD k default) ≤ nl.cutoffs.skin2)
    (i j : ℕ) (hi : i < ps.len) (hj : j < i)
    (hclose : cell.distance2 (now.position.getD i default)
        (now.position.getD j default) < nl.cutoffs.max_cutoff2) :
    j ∈ (nl.update_neighbors cell ps).edges.getD i [] := by
  rw [nl.mem_edges_update_neighbors cell ps i j hi]
  refine ⟨hj, ?_⟩
  have hsnap : (nl.update_neighbors cell ps).position_snapshot = ps.position := rfl
  have hdi := hdrift i hi
  have hdj := hdrift j (hj.trans hi)
  rw [hsnap, hcell, Cutoffs.skin2] at hdi hdj
  have hij := hclose
  rw [hcell, Cutoffs.max_cutoff2] at hij
  have t1 := hdtri (ps.position.getD i default) (now.position.getD i default)
    (ps.position.getD j default)
  have t2 := hdtri (now.position.getD i default) (now.position.getD j default)
    (ps.position.getD j default)
  have hflip := hdsymm (now.position.getD j default) (ps.position.getD j default)
  have htriD : d (ps.position.getD i default) (ps.position.getD j default) ≤
      d (ps.position.getD i default) (now.position.getD i default) +
      d (now.position.getD i default) (now.position.getD j default) +
      d (ps.position.getD j default) (now.position.getD j default) := by
    linarith [t1, t2, hflip.le, hflip.ge]
  rw [hcell, Cutoffs.update_cutoff2]
  exact drift_arith nl.cutoffs.max_cutoff nl.cutoffs.skin
    (d (ps.position.getD i default) (now.position.getD i default))
    (d (now.position.getD i default) (now.position.getD j default))
    (d (ps.position.getD j default) (now.position.getD j default))
    (d (ps.position.getD i default) (ps.position.getD j default))
    hc hs (hd0 _ _) (hd0 _ _) (hd0 _ _) (hd0 _ _) hdi hdj hij htriD

/-- C3 witness: the zero metric on two coincident particles with
`max_cutoff = skin = 1`. -/
theorem claim_C3_witness :
    0 ∈ (sample_list.update_neighbors zero_cell two_particles).edges.getD 1 [] :=
  claim_C3 (fun _ _ => 0) zero_cell (fun _ _ => by norm_num [zero_cell])
    (fun _ _ => le_refl 0) (fun _ _ => rfl) (fun _ _ _ => by norm_num)
    sample_list (by decide) (by decide) two_particles two_particles
    (by decide) 1 0 (by decide) (by decide) (by decide)

/-- C9 (facade equivalence): after both backends are updated on the same
cell and particles, the pairs visited through `each_i`/`each_j` whose
squared distance is below `max_cutoff2` have the same membership for
`AllPairs` and `DirectedLinkedList`. -/
theorem claim_C9 (nl : DirectedLinkedList)
    (hc : 0 ≤ nl.cutoffs.max_cutoff) (hs : 0 ≤ nl.cutoffs.skin)
    (ap : AllPairs) (cell : UnitCell) (ps : ParticleVec) :
    ∃ l₁ l₂,
      (ap.update_neighbors cell ps).visited_pairs = some l₁ ∧
      (nl.update_neighbors cell ps).visited_pairs = some l₂ ∧
      ∀ i j,
        ((i, j) ∈ l₁ ∧ cell.distance2 (ps.position.getD i default)
            (ps.position.getD j default) < nl.cutoffs.max_cutoff2) ↔
        ((i, j) ∈ l₂ ∧ cell.distance2 (ps.position.getD i default)
            (ps.position.getD j default) < nl.cutoffs.max_cutoff2) := by
  have key : ∀ x : ℚ, x < nl.cutoffs.max_cutoff2 → x < nl.cutoffs.update_cutoff2 := by
    intro x hx
    rw [Cutoffs.max_cutoff2] at hx
    rw [Cutoffs.update_cutoff2]
    nlinarith
  have hlen : (nl.update_neighbors cell ps).edges.length = ps.len := by
    simp [DirectedLinkedList.update_neighbors]
  refine ⟨(List.range ps.len).flatMap fun a => (List.range a).map fun b => (a, b),
    (List.range ps.len).flatMap fun a =>
      (((nl.update_neighbors cell ps).edges.get? a).getD []).map fun b => (a, b),
    rfl, ?_, ?_⟩
  · have hv : (nl.update_neighbors cell ps).visited_pairs =
        some ((List.range (nl.update_neighbors cell ps).edges.length).flatMap fun a =>
          (((nl.update_neighbors cell ps).edges.get? a).getD []).map fun b => (a, b)) :=
      rfl
    rw [hv, hlen]
  · have m₁ : ∀ i j : ℕ,
        ((i, j) ∈ (List.range ps.len).flatMap fun a =>
          (List.range a).map fun b => (a, b)) ↔ i < ps.len ∧ j < i := by
      intro i j
      simp [List.mem_flatMap, List.mem_map, List.mem_range, Prod.ext_iff]
    have m₂ : ∀ i j : ℕ,
        ((i, j) ∈ (List.range ps.len).flatMap fun a =>
          (((nl.update_neighbors cell ps).edges.get? a).getD []).map fun b => (a, b)) ↔
          i < ps.len ∧ j ∈ (nl.update_neighbors cell ps).edges.getD i [] := by
      intro i j
      simp only [List.mem_flatMap, List.mem_map, List.mem_range, Prod.ext_iff,
        List.get?_eq_getElem?, ← List.getD_eq_getElem?_getD]
      constructor
      · rintro ⟨a, ha, b, hb, rfl, rfl⟩
        exact ⟨ha, hb⟩
      · rintro ⟨hi, hj⟩
        exact ⟨i, hi, j, hj, rfl, rfl⟩
    intro i j
    constructor
    · rintro ⟨h₁, hd⟩
      obtain ⟨hiN, hji⟩ := (m₁ i j).mp h₁
      refine ⟨(m₂ i j).mpr ⟨hiN, ?_⟩, hd⟩
      exact (nl.mem_edges_update_neighbors cell ps i j hiN).mpr ⟨hji, key _ hd⟩
    · rintro ⟨h₂, hd⟩
      obtain ⟨hiN, hjmem⟩ := (m₂ i j).mp h₂
      obtain ⟨hji, -⟩ := (nl.mem_edges_update_neighbors cell ps i j hiN).mp hjmem
      exact ⟨(m₁ i j).mpr ⟨hiN, hji⟩, hd⟩

/-- C9 witness: the sample backend against `AllPairs` on the three-particle
system in the Euclidean cell. -/
theorem claim_C9_witness :
    ∃ l₁ l₂,
      (AllPairs.new.update_neighbors euclidean_cell three_particles).visited_pairs =
        some l₁ ∧
      (sample_list.update_neighbors euclidean_cell three_particles).visited_pairs =
        some l₂ ∧
      ∀ i j,
        ((i, j) ∈ l₁ ∧ euclidean_cell.distance2 (three_particles.position.getD i default)
            (three_particles.position.getD j default) < sample_list.cutoffs.max_cutoff2) ↔
        ((i, j) ∈ l₂ ∧ euclidean_cell.distance2 (three_particles.position.getD i default)
            (three_particles.position.getD j default) < sample_list.cutoffs.max_cutoff2) :=
  claim_C9 sample_list (by decide) (by decide) AllPairs.new euclidean_cell
    three_particles

end Lumol
